import Mathlib

/-!
# Verification of `src/reqB2.c` (Monte Carlo polygon-area estimator)

Shallow embedding of the C program `reqB2.c`.  The program's `double`
arithmetic is modelled by exact rationals (`ℚ`): the geometry kernel uses
only `+`, `-`, `*`, comparisons, `fmax` and `fmin`, which the rational
model reproduces faithully; the claims under study speak of *exact*
equality/colinearity, which is precisely what the rational model decides.
C `int` counters are modelled by `ℕ` (the inputs of interest are far from
overflow).  The concurrent sampling engine is modelled by explicit state
passing: every sample performed under the program's mutex is one atomic
update of the shared counters, so per-worker loops compose sequentially
for all counting purposes.
-/

/-- `Point` from `reqB2.c` lines 15–18: a pair of coordinates
(doubles, modelled as exact rationals). -/
structure Point where
  x : ℚ
  y : ℚ
deriving DecidableEq, Repr

instance : Inhabited Point := ⟨⟨0, 0⟩⟩

/-- The cross-product value computed by `orientation` (`reqB2.c` line 37):
`(q.y - p.y) * (r.x - q.x) - (q.x - p.x) * (r.y - q.y)`. -/
def orientationVal (p q r : Point) : ℚ :=
  (q.y - p.y) * (r.x - q.x) - (q.x - p.x) * (r.y - q.y)

/-- `orientation` from `reqB2.c` lines 36–41: 0 = colinear, 1 = clockwise,
2 = counterclockwise. -/
def orientation (p q r : Point) : ℕ :=
  if orientationVal p q r = 0 then 0
  else if orientationVal p q r > 0 then 1 else 2

/-- `onSegment` from `reqB2.c` lines 50–56: `q` within the axis-aligned
bounding box of segment `p`–`r` (`fmax`/`fmin` become `max`/`min`). -/
def onSegment (p q r : Point) : Bool :=
  decide (q.x ≤ max p.x r.x ∧ q.x ≥ min p.x r.x ∧
          q.y ≤ max p.y r.y ∧ q.y ≥ min p.y r.y)

/-- `doIntersect` from `reqB2.c` lines 66–81: general orientation test
followed by the four colinear special cases, in source order. -/
def doIntersect (p1 q1 p2 q2 : Point) : Bool :=
  let o1 := orientation p1 q1 p2
  let o2 := orientation p1 q1 q2
  let o3 := orientation p2 q2 p1
  let o4 := orientation p2 q2 q1
  if o1 ≠ o2 ∧ o3 ≠ o4 then true
  else if o1 = 0 ∧ onSegment p1 p2 q1 = true then true
  else if o2 = 0 ∧ onSegment p1 q2 q1 = true then true
  else if o3 = 0 ∧ onSegment p2 p1 q2 = true then true
  else if o4 = 0 ∧ onSegment p2 q1 q2 = true then true
  else false

/-- `polygon[i]` as read by the loop of `isInsidePolygon` (first endpoint
of edge `i`); the default value is never reached for `i < n`. -/
def edgeFst (poly : List Point) (i : ℕ) : Point := poly.getD i ⟨0, 0⟩

/-- `polygon[next]` with `next = (i + 1) % n` (second endpoint of edge `i`). -/
def edgeSnd (poly : List Point) (i : ℕ) : Point :=
  poly.getD ((i + 1) % poly.length) ⟨0, 0⟩

/-- The edges visited by the do-while loop of `isInsidePolygon`
(`reqB2.c` lines 96–105): starting at `i = 0` with `next = (i+1) % n` and
stopping on return to index 0, the loop visits exactly the edges
`(polygon[i], polygon[(i+1) % n])` for `i = 0, …, n-1`, in that order. -/
def edgesOf (poly : List Point) : List (Point × Point) :=
  (List.range poly.length).map fun i => (edgeFst poly i, edgeSnd poly i)

/-- The body of `isInsidePolygon`'s loop (`reqB2.c` lines 96–107), as a
scan over the edge list: for each edge, if `doIntersect` fires then either
return `onSegment` immediately (colinear case, line 100–101) or increment
`count`; after the last edge return `count & 1` (odd crossing count). -/
def insideScan (p extreme : Point) : List (Point × Point) → ℕ → Bool
  | [], count => decide (count % 2 = 1)
  | (a, b) :: rest, count =>
    if doIntersect a b p extreme = true then
      if orientation a p b = 0 then onSegment a p b
      else insideScan p extreme rest (count + 1)
    else insideScan p extreme rest count

/-- `isInsidePolygon` from `reqB2.c` lines 90–108: fails closed for
`n < 3`, otherwise ray-casts from `p` to the fixed extreme point
`(2.5, p.y)` (line 93). -/
def isInsidePolygon (poly : List Point) (p : Point) : Bool :=
  if poly.length < 3 then false
  else insideScan p ⟨5/2, p.y⟩ (edgesOf poly) 0

example : orientation ⟨0, 0⟩ ⟨1, 0⟩ ⟨1, 1⟩ = 2 := by
  norm_num [orientation, orientationVal]
example : isInsidePolygon [⟨0, 0⟩, ⟨2, 0⟩, ⟨2, 2⟩, ⟨0, 2⟩] ⟨1, 1⟩ = true := by
  norm_num [isInsidePolygon, insideScan, edgesOf, edgeFst, edgeSnd, doIntersect,
    orientation, orientationVal, onSegment, List.range_succ]
example : isInsidePolygon [⟨0, 0⟩, ⟨2, 0⟩, ⟨2, 2⟩, ⟨0, 2⟩] ⟨3, 1⟩ = false := by
  norm_num [isInsidePolygon, insideScan, edgesOf, edgeFst, edgeSnd, doIntersect,
    orientation, orientationVal, onSegment, List.range_succ]

/-! ## The sampling engine (`worker_thread` and `main`, `reqB2.c`)

Every iteration of a worker's loop performs one atomic update of the
shared counters under the mutex (lines 117–122): `points_checked++` and,
when `isInsidePolygon` holds for the freshly drawn point,
`points_inside++`.  Because each sample is a single atomic increment
pair, the multiset of updates — and hence both final counter values for
`checked`, and the bound `inside ≤ checked` — is the same for every
interleaving, so the engine is modelled by sequential composition of the
per-worker loops.  Random points are abstracted as an oracle
`sample : ℕ → Point` indexed by the number of samples already taken. -/

/-- The shared counters of `SharedData` (`reqB2.c` lines 20–27). -/
structure Counters where
  points_inside : ℕ
  points_checked : ℕ
deriving DecidableEq, Repr

/-- `RAND_MAX` of glibc (the platform the program targets). -/
def RAND_MAX : ℕ := 2147483647

/-- The point drawn at `reqB2.c` line 115:
`{(double)rand() / RAND_MAX * 2, (double)rand() / RAND_MAX * 2}`,
from two consecutive values of the `rand()` stream. -/
def genPoint (r1 r2 : ℕ) : Point :=
  ⟨(r1 : ℚ) / (RAND_MAX : ℚ) * 2, (r2 : ℚ) / (RAND_MAX : ℚ) * 2⟩

/-- The `k`-th sample point of a run whose `rand()` stream is `rand`:
the `k`-th sample consumes the next two `rand()` values. -/
def sampleOf (rand : ℕ → ℕ) (k : ℕ) : Point :=
  genPoint (rand (2 * k)) (rand (2 * k + 1))

/-- The loop of `worker_thread` (`reqB2.c` lines 114–123), iterated `n`
times from counter state `c`.  Note line 112: `points_per_thread` is set
to `data->total_points` (NOT `total_points / num_threads`), so `main`
runs this with `n = total_points` for every worker. -/
def workerLoop (poly : List Point) (sample : ℕ → Point) : ℕ → Counters → Counters
  | 0, c => c
  | n + 1, c =>
    workerLoop poly sample n
      { points_checked := c.points_checked + 1,
        points_inside :=
          if isInsidePolygon poly (sample c.points_checked) = true then
            c.points_inside + 1
          else c.points_inside }

/-- The sampling run of `main` (`reqB2.c` lines 208–229): counters start
at zero, `numThreads` workers each execute `workerLoop` for
`totalPoints` iterations (line 112), and `main` joins them all. -/
def runEngine (poly : List Point) (sample : ℕ → Point)
    (numThreads totalPoints : ℕ) : Counters :=
  (List.range numThreads).foldl
    (fun c _ => workerLoop poly sample totalPoints c) ⟨0, 0⟩

/-! ## The `main` pipeline (validation, parsing, run, estimate) -/

/-- The failure exits of `main`, in source order. -/
inductive MainError where
  | invalidConfig
  | openFailure
  | tooManyPoints
  | invalidPolygon
deriving DecidableEq, Repr

/-- `MAX_POINTS` (`reqB2.c` line 12). -/
def MAX_POINTS : ℕ := 1000000

/-- The parse loop of `main` (`reqB2.c` lines 184–198): lines that
`sscanf` as two doubles yield a vertex (`some pt`), others are skipped
(`none`); reaching `MAX_POINTS` parsed vertices aborts (lines 190–194). -/
def parsePolygon (lines : List (Option Point)) : Except MainError (List Point) :=
  let pts := lines.filterMap id
  if pts.length ≥ MAX_POINTS then .error .tooManyPoints else .ok pts

/-- The data printed by a successful run of `main`. -/
structure RunResult where
  points_inside : ℕ
  points_checked : ℕ
  estimated_area : ℚ
deriving DecidableEq, Repr

/-- `area_of_reference` (`reqB2.c` line 231). -/
def area_of_reference : ℚ := 4

/-- `main` (`reqB2.c` lines 150–239) as a function of its already-`atoi`ed
arguments, the polygon file (`none` = `open` failed, otherwise the list
of its lines as parsed by `sscanf`), and the sample stream.  Source
order: config validation (line 160), file open (line 165), parse loop
with capacity check (lines 184–198), polygon size check (line 202), the
sampling run (lines 221–229), the estimate (lines 231–233). -/
def mainModel (num_threads num_pontos : ℤ) (file : Option (List (Option Point)))
    (sample : ℕ → Point) : Except MainError RunResult :=
  if num_threads ≤ 0 ∨ num_pontos ≤ 0 then .error .invalidConfig
  else
    match file with
    | none => .error .openFailure
    | some lines =>
      match parsePolygon lines with
      | .error e => .error e
      | .ok poly =>
        if poly.length < 3 then .error .invalidPolygon
        else
          let final := runEngine poly sample num_threads.toNat num_pontos.toNat
          .ok { points_inside := final.points_inside,
                points_checked := final.points_checked,
                estimated_area :=
                  ((final.points_inside : ℚ) / (num_pontos : ℚ)) *
                    area_of_reference }

/-! ## Spec-side definitions (for refinement comparisons only) -/

/-- The spec's formula for the cross product `(q − p) × (r − q)` whose
sign `orientation` is said to return (spec §4.1). -/
def crossSpec (p q r : Point) : ℚ :=
  (q.x - p.x) * (r.y - q.y) - (q.y - p.y) * (r.x - q.x)

/-- The spec's domain area for the default `[0,2]×[0,2]` domain (§4.4). -/
def domainAreaSpec : ℚ := 4

/-- The spec's estimator `estimate(counters, config) =
(counters.inside / config.total_points) * domain_area` (§4.4). -/
def estimateSpec (inside : ℕ) (total_points : ℤ) : ℚ :=
  ((inside : ℚ) / (total_points : ℚ)) * domainAreaSpec

/-! ## Helper lemmas about the geometry kernel -/

lemma orientation_eq_zero_iff (p q r : Point) :
    orientation p q r = 0 ↔ orientationVal p q r = 0 := by
  unfold orientation
  split_ifs with h1 h2 <;> simp_all

lemma orientation_eq_one_iff (p q r : Point) :
    orientation p q r = 1 ↔ 0 < orientationVal p q r := by
  unfold orientation
  split_ifs with h1 h2 <;> simp_all

lemma orientation_eq_two_iff (p q r : Point) :
    orientation p q r = 2 ↔ orientationVal p q r < 0 := by
  unfold orientation
  split_ifs with h1 h2
  · simp [h1]
  · simp only [OfNat.ofNat_ne_one, false_iff, not_lt] at *
    constructor
    · intro h
      omega
    · intro h
      exact absurd h (not_lt.mpr h2.le)
  · simp only [true_iff]
    exact lt_of_le_of_ne (not_lt.mp h2) h1

lemma orientationVal_swap (p q r : Point) :
    orientationVal p r q = -orientationVal p q r := by
  unfold orientationVal; ring

lemma doIntersect_iff (p1 q1 p2 q2 : Point) :
    doIntersect p1 q1 p2 q2 = true ↔
      ((orientation p1 q1 p2 ≠ orientation p1 q1 q2 ∧
        orientation p2 q2 p1 ≠ orientation p2 q2 q1) ∨
       (orientation p1 q1 p2 = 0 ∧ onSegment p1 p2 q1 = true) ∨
       (orientation p1 q1 q2 = 0 ∧ onSegment p1 q2 q1 = true) ∨
       (orientation p2 q2 p1 = 0 ∧ onSegment p2 p1 q2 = true) ∨
       (orientation p2 q2 q1 = 0 ∧ onSegment p2 q1 q2 = true)) := by
  unfold doIntersect
  dsimp only
  split_ifs with h1 h2 h3 h4 h5 <;> simp_all

/-! ## Claim theorems -/

/-- C4: `pointInPolygon` fails closed — for every polygon with fewer than
3 vertices and every query point, `isInsidePolygon` returns `false`
(`reqB2.c` line 91). -/
theorem isInsidePolygon_fails_closed (poly : List Point) (p : Point)
    (h : poly.length < 3) : isInsidePolygon poly p = false := by
  unfold isInsidePolygon
  rw [if_pos h]

/-- Witness for C4 at the empty polygon and the origin. -/
theorem isInsidePolygon_fails_closed_witness :
    isInsidePolygon [] ⟨0, 0⟩ = false :=
  isInsidePolygon_fails_closed [] ⟨0, 0⟩ (by decide)

/-- C5: `orientation` is antisymmetric under swapping `q` and `r`
(Clockwise `1` ↔ CounterClockwise `2`), and returns Colinear `0` iff the
spec's cross product `(q − p) × (r − q)` is exactly zero. -/
theorem orientation_antisymm_and_colinear (p q r : Point) :
    (orientation p q r = 1 ↔ orientation p r q = 2) ∧
    (orientation p q r = 2 ↔ orientation p r q = 1) ∧
    (orientation p q r = 0 ↔ crossSpec p q r = 0) := by
  have hswap := orientationVal_swap p q r
  have hcross : crossSpec p q r = -orientationVal p q r := by
    unfold crossSpec orientationVal; ring
  refine ⟨?_, ?_, ?_⟩
  · rw [orientation_eq_one_iff, orientation_eq_two_iff, hswap]
    constructor <;> intro h <;> linarith
  · rw [orientation_eq_two_iff, orientation_eq_one_iff, hswap]
    constructor <;> intro h <;> linarith
  · rw [orientation_eq_zero_iff, hcross]
    constructor <;> intro h <;> linarith

/-- C6: the segment-intersection test is symmetric in its two segments:
`doIntersect a b c d = doIntersect c d a b` for all points. -/
theorem doIntersect_symm (a b c d : Point) :
    doIntersect a b c d = doIntersect c d a b := by
  have h1 := doIntersect_iff a b c d
  have h2 := doIntersect_iff c d a b
  by_cases hab : doIntersect a b c d = true
  · have hcd : doIntersect c d a b = true := by
      apply h2.mpr
      rcases h1.mp hab with ⟨hA, hB⟩ | h | h | h | h
      · exact Or.inl ⟨hB, hA⟩
      · exact Or.inr (Or.inr (Or.inr (Or.inl h)))
      · exact Or.inr (Or.inr (Or.inr (Or.inr h)))
      · exact Or.inr (Or.inl h)
      · exact Or.inr (Or.inr (Or.inl h))
    rw [hab, hcd]
  · have hcd : ¬doIntersect c d a b = true := by
      intro hc
      apply hab
      apply h1.mpr
      rcases h2.mp hc with ⟨hA, hB⟩ | h | h | h | h
      · exact Or.inl ⟨hB, hA⟩
      · exact Or.inr (Or.inr (Or.inr (Or.inl h)))
      · exact Or.inr (Or.inr (Or.inr (Or.inr h)))
      · exact Or.inr (Or.inl h)
      · exact Or.inr (Or.inr (Or.inl h))
    rw [Bool.not_eq_true] at hab hcd
    rw [hab, hcd]

/-- C7: `onSegment p q r` is true iff `q` lies in the axis-aligned
bounding box of segment `p`–`r`; and it does not by itself verify
colinearity (there are non-colinear triples it accepts). -/
theorem onSegment_bbox_characterization :
    (∀ p q r : Point,
      (onSegment p q r = true ↔
        (min p.x r.x ≤ q.x ∧ q.x ≤ max p.x r.x ∧
         min p.y r.y ≤ q.y ∧ q.y ≤ max p.y r.y))) ∧
    (∃ p q r : Point, onSegment p q r = true ∧ orientation p q r ≠ 0) := by
  constructor
  · intro p q r
    unfold onSegment
    simp only [ge_iff_le, decide_eq_true_eq]
    tauto
  · refine ⟨⟨0, 0⟩, ⟨1, 0⟩, ⟨1, 1⟩, ?_, ?_⟩
    · norm_num [onSegment]
    · norm_num [orientation, orientationVal]

/-! ## Helper lemmas about the sampling engine -/

lemma workerLoop_checked (poly : List Point) (sample : ℕ → Point) (n : ℕ) :
    ∀ c : Counters,
      (workerLoop poly sample n c).points_checked = c.points_checked + n := by
  induction n with
  | zero => intro c; rfl
  | succ n ih =>
    intro c
    rw [workerLoop, ih]
    dsimp only
    omega

lemma workerLoop_inside_le (poly : List Point) (sample : ℕ → Point) (n : ℕ) :
    ∀ c : Counters, c.points_inside ≤ c.points_checked →
      (workerLoop poly sample n c).points_inside ≤
        (workerLoop poly sample n c).points_checked := by
  induction n with
  | zero => intro c h; exact h
  | succ n ih =>
    intro c h
    rw [workerLoop]
    apply ih
    dsimp only
    split <;> omega

lemma runEngine_checked (poly : List Point) (sample : ℕ → Point)
    (numThreads totalPoints : ℕ) :
    (runEngine poly sample numThreads totalPoints).points_checked =
      numThreads * totalPoints := by
  unfold runEngine
  have h : ∀ (l : List ℕ) (c : Counters),
      ((l.foldl (fun c _ => workerLoop poly sample totalPoints c) c)).points_checked
        = c.points_checked + l.length * totalPoints := by
    intro l
    induction l with
    | nil => intro c; simp
    | cons a l ih =>
      intro c
      rw [List.foldl_cons, ih, workerLoop_checked]
      simp only [List.length_cons]
      ring
  rw [h]
  simp

lemma runEngine_inside_le (poly : List Point) (sample : ℕ → Point)
    (numThreads totalPoints : ℕ) :
    (runEngine poly sample numThreads totalPoints).points_inside ≤
      (runEngine poly sample numThreads totalPoints).points_checked := by
  unfold runEngine
  have h : ∀ (l : List ℕ) (c : Counters), c.points_inside ≤ c.points_checked →
      ((l.foldl (fun c _ => workerLoop poly sample totalPoints c) c)).points_inside
        ≤ ((l.foldl (fun c _ => workerLoop poly sample totalPoints c) c)).points_checked := by
    intro l
    induction l with
    | nil => intro c h; exact h
    | cons a l ih =>
      intro c h
      exact ih _ (workerLoop_inside_le poly sample totalPoints c h)
  exact h (List.range numThreads) ⟨0, 0⟩ (le_refl 0)

/-- C1 (code bug): the run does NOT partition `total_points` across the
workers.  `worker_thread` sets `points_per_thread = data->total_points`
(`reqB2.c` line 112), so each of the `numThreads` workers processes the
full `totalPoints` samples and the final checked counter equals
`numThreads * totalPoints` — for 2 workers and 1 total point it is 2,
not the 1 the claim requires. -/
theorem runEngine_checked_eq_mul (poly : List Point) (sample : ℕ → Point)
    (numThreads totalPoints : ℕ) :
    (runEngine poly sample numThreads totalPoints).points_checked =
      numThreads * totalPoints ∧
    (runEngine poly sample 2 1).points_checked = 2 :=
  ⟨runEngine_checked poly sample numThreads totalPoints,
   runEngine_checked poly sample 2 1⟩

/-- C2 (code bug): `0 ≤ inside ≤ checked` does hold, but the invariant
`checked ≤ total_points` is violated at an observable instant: with 2
workers and `total_points = 1`, the final (joined, hence observable)
state has `checked = 2 > 1`, because each worker processes the full
`total_points` (`reqB2.c` line 112). -/
theorem runEngine_invariant_total_bound_fails (poly : List Point)
    (sample : ℕ → Point) :
    (runEngine poly sample 2 1).points_inside ≤
      (runEngine poly sample 2 1).points_checked ∧
    ¬((runEngine poly sample 2 1).points_checked ≤ 1) := by
  refine ⟨runEngine_inside_le poly sample 2 1, ?_⟩
  rw [runEngine_checked]
  omega

/-- C10: every sample point drawn by a worker (`reqB2.c` line 115) lies
in the sampling domain `[0,2] × [0,2]`, provided the `rand()` stream
obeys the C standard's guarantee `0 ≤ rand() ≤ RAND_MAX`. -/
theorem sample_in_domain (rand : ℕ → ℕ) (hr : ∀ n, rand n ≤ RAND_MAX)
    (k : ℕ) :
    0 ≤ (sampleOf rand k).x ∧ (sampleOf rand k).x ≤ 2 ∧
    0 ≤ (sampleOf rand k).y ∧ (sampleOf rand k).y ≤ 2 := by
  have hcoord : ∀ r : ℕ, r ≤ RAND_MAX →
      0 ≤ (r : ℚ) / (RAND_MAX : ℚ) * 2 ∧ (r : ℚ) / (RAND_MAX : ℚ) * 2 ≤ 2 := by
    intro r hle
    have hpos : (0 : ℚ) < (RAND_MAX : ℚ) := by norm_num [RAND_MAX]
    have hub : (r : ℚ) / (RAND_MAX : ℚ) ≤ 1 := by
      rw [div_le_one hpos]
      exact_mod_cast hle
    have hlb : (0 : ℚ) ≤ (r : ℚ) / (RAND_MAX : ℚ) :=
      div_nonneg (by positivity) hpos.le
    constructor
    · linarith
    · linarith
  exact ⟨(hcoord _ (hr (2 * k))).1, (hcoord _ (hr (2 * k))).2,
         (hcoord _ (hr (2 * k + 1))).1, (hcoord _ (hr (2 * k + 1))).2⟩

/-- Witness for C10 at the all-zero `rand` stream and the first sample. -/
theorem sample_in_domain_witness :
    0 ≤ (sampleOf (fun _ => 0) 0).x ∧ (sampleOf (fun _ => 0) 0).x ≤ 2 ∧
    0 ≤ (sampleOf (fun _ => 0) 0).y ∧ (sampleOf (fun _ => 0) 0).y ≤ 2 :=
  sample_in_domain (fun _ => 0) (fun _ => Nat.zero_le _) 0

/-- C8: the estimate printed by `main` (`reqB2.c` lines 231–233) is the
pure function of the final counters and the config that the spec
prescribes: `(inside / total_points) * domain_area` with
`domain_area = 4`. -/
theorem mainModel_estimate_refines_spec (nt np : ℤ)
    (file : Option (List (Option Point))) (sample : ℕ → Point)
    (res : RunResult) (h : mainModel nt np file sample = .ok res) :
    res.estimated_area = estimateSpec res.points_inside np := by
  unfold mainModel at h
  split at h
  · simp at h
  · split at h
    · simp at h
    · split at h
      · simp at h
      · split at h
        · simp at h
        · rw [Except.ok.injEq] at h
          subst h
          rfl

/-- Witness for C8: a complete run with 1 worker, 1 sample landing inside
the square `[(0,0),(2,0),(2,2),(0,2)]`, whose printed estimate is 4. -/
theorem mainModel_estimate_refines_spec_witness :
    ({ points_inside := 1, points_checked := 1, estimated_area := 4 } :
        RunResult).estimated_area = estimateSpec 1 1 :=
  mainModel_estimate_refines_spec 1 1
    (some [some ⟨0, 0⟩, some ⟨2, 0⟩, some ⟨2, 2⟩, some ⟨0, 2⟩])
    (fun _ => ⟨1, 1⟩)
    { points_inside := 1, points_checked := 1, estimated_area := 4 }
    (by norm_num [mainModel, parsePolygon, MAX_POINTS, runEngine, workerLoop,
      isInsidePolygon, insideScan, edgesOf, edgeFst, edgeSnd, doIntersect,
      orientation, orientationVal, onSegment, area_of_reference,
      List.range_succ, List.filterMap])

/-- C9: fail-fast validation in `main`.  Non-positive worker or sample
counts are rejected (`reqB2.c` line 160) before the polygon file is even
opened; a polygon with fewer than 3 parsed vertices is rejected
(line 202) — in both cases `main` returns an error and the sampling run
(worker spawn, sample draw, counter mutation, estimate print) never
happens, as the error is produced before `runEngine` is reached. -/
theorem mainModel_fail_fast (nt np : ℤ) (lines : List (Option Point))
    (file : Option (List (Option Point))) (sample : ℕ → Point) :
    ((nt ≤ 0 ∨ np ≤ 0) → mainModel nt np file sample = .error .invalidConfig) ∧
    (0 < nt → 0 < np → (lines.filterMap id).length < 3 →
      mainModel nt np (some lines) sample = .error .invalidPolygon) := by
  constructor
  · intro h
    unfold mainModel
    rw [if_pos h]
  · intro hnt hnp hlen
    unfold mainModel
    rw [if_neg (by omega)]
    dsimp only
    unfold parsePolygon
    dsimp only
    rw [if_neg (by simp only [MAX_POINTS]; omega)]
    dsimp only
    rw [if_pos hlen]

/-- Witness for C9: a non-positive worker count is rejected as invalid
config, and a 1-vertex polygon file is rejected as an invalid polygon. -/
theorem mainModel_fail_fast_witness :
    mainModel 0 5 none (fun _ => ⟨0, 0⟩) = .error .invalidConfig ∧
    mainModel 1 1 (some [some ⟨0, 0⟩]) (fun _ => ⟨0, 0⟩) =
      .error .invalidPolygon :=
  ⟨(mainModel_fail_fast 0 5 [] none (fun _ => ⟨0, 0⟩)).1
      (Or.inl (by norm_num)),
   (mainModel_fail_fast 1 1 [some ⟨0, 0⟩] none (fun _ => ⟨0, 0⟩)).2
      (by norm_num) (by norm_num) (by simp)⟩

/-! ## C3: the colinear short-circuit of `isInsidePolygon` -/

lemma insideScan_first_hit (p ext a b : Point) (rest : List (Point × Point))
    (hint : doIntersect a b p ext = true) (hcol : orientation a p b = 0) :
    ∀ (pre : List (Point × Point)) (c : ℕ),
      (∀ e ∈ pre,
        ¬(doIntersect e.1 e.2 p ext = true ∧ orientation e.1 p e.2 = 0)) →
      insideScan p ext (pre ++ (a, b) :: rest) c = onSegment a p b := by
  intro pre
  induction pre with
  | nil =>
    intro c _
    rw [List.nil_append]
    simp only [insideScan]
    rw [if_pos hint, if_pos hcol]
  | cons e pre ih =>
    intro c hpre
    obtain ⟨ea, eb⟩ := e
    have hhead := hpre (ea, eb) (List.mem_cons_self _ _)
    have htail : ∀ e ∈ pre,
        ¬(doIntersect e.1 e.2 p ext = true ∧ orientation e.1 p e.2 = 0) :=
      fun e he => hpre e (List.mem_cons_of_mem _ he)
    rw [List.cons_append]
    simp only [insideScan]
    by_cases hd : doIntersect ea eb p ext = true
    · have hno : ¬orientation ea p eb = 0 := fun hc => hhead ⟨hd, hc⟩
      rw [if_pos hd, if_neg hno]
      exact ih (c + 1) htail
    · rw [if_neg hd]
      exact ih c htail

lemma edgesOf_take (poly : List Point) (k : ℕ) (hk : k ≤ poly.length) :
    (edgesOf poly).take k =
      (List.range k).map fun i => (edgeFst poly i, edgeSnd poly i) := by
  unfold edgesOf
  rw [← List.map_take, List.take_range, min_eq_left hk]

/-- C3 (amended): the colinear short-circuit applies to the first edge —
in the loop's iteration order — for which the ray-intersection test
`doIntersect` succeeds AND the query point is colinear with the edge's
endpoints; for that edge the result is exactly `onSegment`.  (The claim
as stated, quantifying over any colinear edge without requiring the ray
test to succeed, is refuted below by `colinear_edge_no_shortcircuit`.) -/
theorem isInside_colinear_first_hit (poly : List Point) (p : Point) (k : ℕ)
    (h3 : 3 ≤ poly.length) (hk : k < poly.length)
    (hint : doIntersect (edgeFst poly k) (edgeSnd poly k) p ⟨5/2, p.y⟩ = true)
    (hcol : orientation (edgeFst poly k) p (edgeSnd poly k) = 0)
    (hprev : ∀ j, j < k →
      ¬(doIntersect (edgeFst poly j) (edgeSnd poly j) p ⟨5/2, p.y⟩ = true ∧
        orientation (edgeFst poly j) p (edgeSnd poly j) = 0)) :
    isInsidePolygon poly p = onSegment (edgeFst poly k) p (edgeSnd poly k) := by
  unfold isInsidePolygon
  rw [if_neg (by omega)]
  have hklen : k < (edgesOf poly).length := by
    simpa [edgesOf] using hk
  have hsplit : edgesOf poly =
      (edgesOf poly).take k ++
        (edgeFst poly k, edgeSnd poly k) :: (edgesOf poly).drop (k + 1) := by
    conv_lhs => rw [← List.take_append_drop k (edgesOf poly)]
    congr 1
    rw [List.drop_eq_getElem_cons hklen]
    congr 1
    simp [edgesOf]
  rw [hsplit]
  apply insideScan_first_hit _ _ _ _ _ hint hcol
  intro e he
  rw [edgesOf_take poly k hk.le] at he
  obtain ⟨j, hj, rfl⟩ := List.mem_map.mp he
  exact hprev j (List.mem_range.mp hj)

/-- The unit-scaled square polygon used as a concrete test input. -/
def squarePoly : List Point := [⟨0, 0⟩, ⟨2, 0⟩, ⟨2, 2⟩, ⟨0, 2⟩]

/-- Witness for C3 (amended): the boundary point `(1,0)` lies on edge 0
of the square; edge 0 is the first ray-intersecting colinear edge, and
the result equals `onSegment` there (namely `true`). -/
theorem isInside_colinear_first_hit_witness :
    isInsidePolygon squarePoly ⟨1, 0⟩ =
      onSegment (edgeFst squarePoly 0) ⟨1, 0⟩ (edgeSnd squarePoly 0) :=
  isInside_colinear_first_hit squarePoly ⟨1, 0⟩ 0
    (by norm_num [squarePoly])
    (by norm_num [squarePoly])
    (by norm_num [squarePoly, edgeFst, edgeSnd, doIntersect, orientation,
      orientationVal, onSegment, List.getD_cons_zero, List.getD_cons_succ])
    (by norm_num [squarePoly, edgeFst, edgeSnd, orientation, orientationVal,
      List.getD_cons_zero, List.getD_cons_succ])
    (fun j hj => absurd hj (Nat.not_lt_zero j))

/-- A square with a notch: its edge 2, from `(2,2)` to `(1,1)`, lies on
the line `y = x`, which passes through the polygon's interior. -/
def notchPoly : List Point := [⟨0, 0⟩, ⟨2, 0⟩, ⟨2, 2⟩, ⟨1, 1⟩, ⟨0, 2⟩]

/-- Counterexample to C3 as stated: the point `(1/2, 1/2)` is exactly
colinear with the endpoints of edge 2 of `notchPoly`, and `onSegment`
against that edge is `false` (the point is outside the edge's bounding
box) — yet `isInsidePolygon` returns `true`, because the ray from
`(1/2, 1/2)` to `(5/2, 1/2)` misses edge 2 entirely, so the
short-circuit never fires and the crossing count (1, odd) decides. -/
theorem colinear_edge_no_shortcircuit :
    orientation (edgeFst notchPoly 2) ⟨1/2, 1/2⟩ (edgeSnd notchPoly 2) = 0 ∧
    onSegment (edgeFst notchPoly 2) ⟨1/2, 1/2⟩ (edgeSnd notchPoly 2) = false ∧
    isInsidePolygon notchPoly ⟨1/2, 1/2⟩ = true := by
  refine ⟨?_, ?_, ?_⟩
  · norm_num [notchPoly, edgeFst, edgeSnd, orientation, orientationVal,
      List.getD_cons_zero, List.getD_cons_succ]
  · norm_num [notchPoly, edgeFst, edgeSnd, onSegment,
      List.getD_cons_zero, List.getD_cons_succ]
  · norm_num [notchPoly, isInsidePolygon, insideScan, edgesOf, edgeFst,
      edgeSnd, doIntersect, orientation, orientationVal, onSegment,
      List.range_succ, List.getD_cons_zero, List.getD_cons_succ]
